import Mathlib

/-!
Shallow embedding of the MPK Łódź realtime vehicle-position server
(`lib/server.js`): configuration validation, the snapshot cache and its
commit/failure transitions, the exponential-backoff scheduler, the feed
decoder, and the `/positions` request handler.  JavaScript numbers on the
paths modelled here are integers, embedded as `Int`/`Nat`; JavaScript
falsiness of `0`, `""`, `null`/`undefined` is modelled explicitly.
-/

/-- A JavaScript number as it can reach the configuration validation code:
`NaN`, the infinities, or a finite (integer) value. -/
inductive JSNum where
  | nan
  | posInf
  | negInf
  | finite (v : Int)
deriving DecidableEq, Repr

/-- `Number.isFinite`. -/
def JSNum.isFinite : JSNum → Bool
  | .finite _ => true
  | _ => false

/-- Validation of `refreshIntervalMs` (`lib/server.js` lines 44-53):
default 30000 when absent or not a finite positive number, then clamped to
the 5000ms minimum. -/
def validateRefreshIntervalMs (opt : Option JSNum) : Int :=
  let r : JSNum := opt.getD (JSNum.finite 30000)
  let r1 : Int :=
    match r with
    | .finite v => if v ≤ 0 then 30000 else v
    | _ => 30000
  if r1 < 5000 then 5000 else r1

/-- Validation of `maxBackoffMs` (`lib/server.js` lines 71-76): default 5
minutes when absent; a value that is not finite or is ≤ the (validated)
refresh interval is replaced by `max(refreshIntervalMs * 4, 5 minutes)`. -/
def validateMaxBackoffMs (refreshIntervalMs : Int) (opt : Option JSNum) : Int :=
  let m : JSNum := opt.getD (JSNum.finite 300000)
  match m with
  | .finite v =>
    if v ≤ refreshIntervalMs then max (4 * refreshIntervalMs) 300000 else v
  | _ => max (4 * refreshIntervalMs) 300000

/-- `MAX_BACKOFF_MULTIPLIER` (`lib/server.js` line 77). -/
def MAX_BACKOFF_MULTIPLIER : Nat := 16

/-- Entry-point default for the `MAX_BACKOFF_MS` environment variable
(`main.js` lines 29-32): `max(REFRESH_INTERVAL_MS * 8, 5 minutes)` is used
when the variable does not parse to a finite integer. -/
def mainMaxBackoffDefault (refreshIntervalMs : Int) : Int :=
  max (8 * refreshIntervalMs) 300000

/-- Backoff multiplier computed in `scheduleNextRefresh` (`lib/server.js`
line 201): `min(2 ^ max(0, consecutiveFailures - 1), 16)`.  `Nat`
subtraction gives exactly `max(0, n - 1)`. -/
def backoffMultiplier (consecutiveFailures : Nat) : Nat :=
  min (2 ^ (consecutiveFailures - 1)) MAX_BACKOFF_MULTIPLIER

/-- Delay armed by `scheduleNextRefresh` (`lib/server.js` line 202):
`min(refreshIntervalMs * backoffMultiplier, maxBackoffMs)`. -/
def scheduleDelay (refreshIntervalMs maxBackoffMs : Int)
    (consecutiveFailures : Nat) : Int :=
  min (refreshIntervalMs * (backoffMultiplier consecutiveFailures : Int))
    maxBackoffMs

/-- One decoded vehicle record, the element shape pushed onto `items`
(`lib/server.js` lines 152-165).  Coordinates are required; every other
field can be `null`. -/
structure VehicleRecord where
  id : Option String
  label : Option String
  lat : Int
  lon : Int
  bearing : Option Int
  speed : Option Int
  routeId : Option String
  tripId : Option String
  timestamp : Option Int
  headsign : Option String
  directionId : Option Int
  vehicleType : Option Int
deriving DecidableEq, Repr

/-- The mutable server-side snapshot state (`lib/server.js` lines 90-98).
`lastUpdatedAtMs = 0` means no successful refresh has ever happened.
Errors are represented by their message string. -/
structure ServerState where
  vehicles : List VehicleRecord
  vehiclesJson : String
  vehiclesEtag : String
  lastUpdatedAtMs : Nat
  lastUpdateError : Option String
  consecutiveFailures : Nat
deriving DecidableEq, Repr

/-- `computeEtag` (`lib/server.js` lines 18-23), parameterized by the SHA-1
hex digest function (the `crypto` library call), applied to the already
serialized snapshot string. -/
def computeEtag (sha1hex : String → String) (lastUpdatedAtMs : Nat)
    (vehiclesJson : String) : String :=
  let hash := sha1hex vehiclesJson
  if lastUpdatedAtMs = 0 then "W/\"empty-" ++ hash ++ "\""
  else "\"" ++ toString lastUpdatedAtMs ++ "-" ++ hash ++ "\""

/-- The initial state set up by `createServer` (`lib/server.js` lines
90-98): empty vehicle list, serialized `"[]"`, empty-sentinel ETag, no
update yet, no error, zero consecutive failures. -/
def initialState (sha1hex : String → String) : ServerState :=
  { vehicles := []
    vehiclesJson := "[]"
    vehiclesEtag := computeEtag sha1hex 0 "[]"
    lastUpdatedAtMs := 0
    lastUpdateError := none
    consecutiveFailures := 0 }

/-- The success path of `refresh()` (`lib/server.js` lines 167-173): the
snapshot is replaced wholesale, the serialized form and ETag are recomputed
from the new records, `updatedAt` is stamped, the error is cleared and the
failure counter reset.  `stringify` abstracts `JSON.stringify`. -/
def commitRefresh (stringify : List VehicleRecord → String)
    (sha1hex : String → String) (items : List VehicleRecord) (now : Nat) :
    ServerState :=
  let json := stringify items
  { vehicles := items
    vehiclesJson := json
    vehiclesEtag := computeEtag sha1hex now json
    lastUpdatedAtMs := now
    lastUpdateError := none
    consecutiveFailures := 0 }

/-- The failure path of `refresh()` (`lib/server.js` lines 175-179): the
error is stored, `consecutiveFailures` is incremented, and nothing else of
the state is touched. -/
def recordFailure (s : ServerState) (err : String) : ServerState :=
  { s with lastUpdateError := some err
           consecutiveFailures := s.consecutiveFailures + 1 }

/-- Outcome of one refresh attempt: either the decoded records (with the
commit timestamp), or a failure (network error, timeout abort, non-ok
upstream status, or decode error — all flow into the same `catch` block of
`refresh()`). -/
inductive RefreshOutcome where
  | success (items : List VehicleRecord) (now : Nat)
  | failure (err : String)
deriving DecidableEq, Repr

/-- The state transition performed by one settled refresh attempt
(`lib/server.js` lines 109-184). -/
def refreshStep (stringify : List VehicleRecord → String)
    (sha1hex : String → String) (s : ServerState) :
    RefreshOutcome → ServerState
  | .success items now => commitRefresh stringify sha1hex items now
  | .failure err => recordFailure s err

/-- `currentEtag` (`lib/server.js` line 101): `vehiclesEtag ||
computeEtag(lastUpdatedAtMs, vehiclesJson)` — the stored ETag unless it is
the empty (falsy) string. -/
def currentEtag (sha1hex : String → String) (s : ServerState) : String :=
  if s.vehiclesEtag = "" then
    computeEtag sha1hex s.lastUpdatedAtMs s.vehiclesJson
  else s.vehiclesEtag

/-- The ETag used by the `/positions` handler (`lib/server.js` line 223):
`vehiclesEtag || currentEtag()`. -/
def positionsEtag (sha1hex : String → String) (s : ServerState) : String :=
  if s.vehiclesEtag = "" then currentEtag sha1hex s else s.vehiclesEtag

/-- `stalenessMs` as computed by the handler (`lib/server.js` line 233):
`lastUpdatedAtMs ? Date.now() - lastUpdatedAtMs : null` — it is `null`
(not a number) when no refresh has ever succeeded. -/
def stalenessMsAt (s : ServerState) (now : Nat) : Option Int :=
  if s.lastUpdatedAtMs = 0 then none
  else some ((now : Int) - (s.lastUpdatedAtMs : Int))

/-- `isStale` as computed by the handler (`lib/server.js` line 237):
`stalenessMs != null && stalenessMs > staleAfterMs`.  A `null` staleness
(never updated) is NOT considered stale here. -/
def isStaleAt (staleAfterMs : Int) (s : ServerState) (now : Nat) : Bool :=
  match stalenessMsAt s now with
  | none => false
  | some d => staleAfterMs < d

/-- The observable pieces of a `/positions` HTTP response: status code, the
headers the handler sets, and the body (empty for 304). -/
structure PositionsResponse where
  status : Nat
  etagHeader : String
  xFeedUpdatedAt : Option Nat
  xFeedError : Option String
  xFeedStalenessMs : Option Int
  xFeedStale : Bool
  xFeedWarning : Option String
  retryAfter : Option Int
  body : String
deriving DecidableEq, Repr

/-- The `/positions` handler (`lib/server.js` lines 221-251), applied to
the server state as it stands after the initial `ensureLatest()` await.
`Retry-After` is `Math.ceil(refreshIntervalMs / 1000)`, modelled with a
floor division of `refreshIntervalMs + 999`. -/
def positionsHandler (sha1hex : String → String)
    (refreshIntervalMs staleAfterMs : Int) (s : ServerState) (now : Nat)
    (ifNoneMatch : Option String) : PositionsResponse :=
  let etag := positionsEtag sha1hex s
  let stalenessMs := stalenessMsAt s now
  let isStale := isStaleAt staleAfterMs s now
  let base : PositionsResponse :=
    { status := 200
      etagHeader := etag
      xFeedUpdatedAt :=
        if s.lastUpdatedAtMs = 0 then none else some s.lastUpdatedAtMs
      xFeedError :=
        s.lastUpdateError.map (fun m => if m = "" then "Unknown error" else m)
      xFeedStalenessMs := stalenessMs
      xFeedStale := isStale
      xFeedWarning :=
        if isStale then
          some ("Data older than " ++ toString staleAfterMs ++ "ms")
        else none
      retryAfter :=
        if isStale then some (Int.fdiv (refreshIntervalMs + 999) 1000)
        else none
      body := "" }
  if !isStale && (ifNoneMatch == some etag) then
    { base with status := 304, body := "" }
  else
    { base with status := if isStale then 503 else 200,
                body := s.vehiclesJson }

/-- JavaScript truthiness filter for an optional string: `""` is falsy. -/
def truthyStr : Option String → Option String
  | some s => if s = "" then none else some s
  | none => none

/-- JavaScript `a || b` on optional strings: yields `a` when truthy,
otherwise `b` unchanged (which may itself be `""`). -/
def jsOrStr (a b : Option String) : Option String :=
  match truthyStr a with
  | some s => some s
  | none => b

/-- JavaScript `x || null` on an optional number: `0` is falsy and is
coerced to `null`. -/
def jsNumOrNull : Option Int → Option Int
  | some v => if v = 0 then none else some v
  | none => none

/-- The character class `[-–>]` of the headsign separator regex
(`lib/server.js` line 29). -/
def isSep (c : Char) : Bool :=
  c == '-' || c == '–' || c == '>'

/-- JavaScript `\s` (regex whitespace): ASCII whitespace, NBSP, the Unicode
space separators, the line/paragraph separators, and the BOM. -/
def isJsSpace (c : Char) : Bool :=
  c == ' ' || c == '\t' || c == '\n' || c == '\r' ||
  c.val == 11 || c.val == 12 || c.val == 0xa0 || c.val == 0x1680 ||
  (0x2000 ≤ c.val && c.val ≤ 0x200a) ||
  c.val == 0x2028 || c.val == 0x2029 || c.val == 0x202f ||
  c.val == 0x205f || c.val == 0x3000 || c.val == 0xfeff

/-- JavaScript line terminators, which `.` never matches. -/
def isLineTerm (c : Char) : Bool :=
  c == '\n' || c == '\r' || c.val == 0x2028 || c.val == 0x2029

/-- Whether a character list can be the `(.+)$` capture: nonempty and free
of line terminators. -/
def capOk (cs : List Char) : Bool :=
  !cs.isEmpty && cs.all (fun c => !isLineTerm c)

/-- Match `\s*(.+)$` against `cs` with the greedy-then-backtrack semantics
of the JavaScript engine: prefer consuming leading whitespace, fall back to
starting the capture earlier when the remainder cannot form a capture. -/
def trySpacesCapture : List Char → Option (List Char)
  | [] => none
  | c :: cs =>
    if isJsSpace c then
      match trySpacesCapture cs with
      | some cap => some cap
      | none => if capOk (c :: cs) then some (c :: cs) else none
    else if capOk (c :: cs) then some (c :: cs) else none

/-- Try to match `[-–>]{1,2}\s*(.+)$` starting exactly at the head of the
list: greedily take two separator characters when available, backtracking
to one if the rest of the pattern then fails. -/
def tryAtSep : List Char → Option (List Char)
  | [] => none
  | [c] => if isSep c then trySpacesCapture [] else none
  | c1 :: c2 :: rest =>
    if isSep c1 then
      if isSep c2 then
        match trySpacesCapture rest with
        | some cap => some cap
        | none => trySpacesCapture (c2 :: rest)
      else trySpacesCapture (c2 :: rest)
    else none

/-- Scan for the leftmost position at which `[-–>]{1,2}\s*(.+)$` matches,
returning the capture group. -/
def regexScan : List Char → Option (List Char)
  | [] => none
  | c :: rest =>
    match tryAtSep (c :: rest) with
    | some cap => some cap
    | none => regexScan rest

/-- JavaScript `String.prototype.trim`: strips whitespace and line
terminators from both ends. -/
def jsTrim (s : String) : String :=
  let keep : Char → Bool := fun c => !(isJsSpace c || isLineTerm c)
  let cs := s.toList.dropWhile (fun c => !keep c)
  String.mk ((cs.reverse.dropWhile (fun c => !keep c)).reverse)

/-- `deriveHeadsignFromLabel` (`lib/server.js` lines 25-34): on a truthy
label, trim it, match `[-–>]{1,2}\s*(.+)$`, and return the trimmed capture
when the capture is truthy. -/
def deriveHeadsignFromLabel (label : Option String) : Option String :=
  match truthyStr label with
  | none => none
  | some l =>
    let text := jsTrim l
    if text = "" then none
    else
      match regexScan text.toList with
      | some cap =>
        let capStr := String.mk cap
        if capStr = "" then none else some (jsTrim capStr)
      | none => none

/-- The position sub-record of a decoded feed entity. -/
structure GtfsPosition where
  latitude : Option Int
  longitude : Option Int
  bearing : Option Int
  speed : Option Int
deriving DecidableEq, Repr

/-- The trip descriptor of a decoded feed entity, with both the camel-case
and snake-case spellings the decoder accepts; `Option.isSome` models
`hasOwnProperty`. -/
structure GtfsTrip where
  routeId : Option String
  route_id : Option String
  tripId : Option String
  trip_id : Option String
  tripHeadsign : Option String
  trip_headsign : Option String
  headsign : Option String
  tripDestination : Option String
  destination : Option String
  directionId : Option Int
  direction_id : Option Int
  routeType : Option Int
  route_type : Option Int
deriving DecidableEq, Repr

/-- The trip descriptor with every field absent (`vehicle.trip || {}`). -/
def emptyTrip : GtfsTrip :=
  { routeId := none, route_id := none, tripId := none, trip_id := none
    tripHeadsign := none, trip_headsign := none, headsign := none
    tripDestination := none, destination := none
    directionId := none, direction_id := none
    routeType := none, route_type := none }

/-- The vehicle descriptor of a decoded feed entity. -/
structure GtfsVehicleDescriptor where
  id : Option String
  label : Option String
  type : Option Int
deriving DecidableEq, Repr

/-- The vehicle descriptor with every field absent
(`vehicle.vehicle || {}`). -/
def emptyDescriptor : GtfsVehicleDescriptor :=
  { id := none, label := none, type := none }

/-- The vehicle-position payload of a decoded feed entity, with the fields
the server reads. -/
structure GtfsVehicle where
  position : Option GtfsPosition
  trip : Option GtfsTrip
  vehicle : Option GtfsVehicleDescriptor
  headsign : Option String
  timestamp : Option Int
deriving DecidableEq, Repr

/-- One decoded feed entity. -/
structure FeedEntity where
  id : Option String
  vehicle : Option GtfsVehicle
deriving DecidableEq, Repr

/-- The headsign fallback chain of the decoding loop (`lib/server.js`
lines 138-147): the explicit headsign fields joined by `||`, then the
label-derived fallback when every explicit field is falsy. -/
def headsignChain (vehicleHeadsign : Option String) (attribs : GtfsTrip)
    (label : Option String) : Option String :=
  let h0 :=
    jsOrStr vehicleHeadsign
      (jsOrStr attribs.tripHeadsign
        (jsOrStr attribs.trip_headsign
          (jsOrStr attribs.headsign
            (jsOrStr attribs.tripDestination
              (jsOrStr attribs.destination none)))))
  match truthyStr h0 with
  | some s => some s
  | none => deriveHeadsignFromLabel label

/-- The record built for one entity that passed the coordinate guard
(`lib/server.js` lines 125-165). -/
def buildRecord (e : FeedEntity) (vehicle : GtfsVehicle)
    (pos : GtfsPosition) (lat lon : Int) : VehicleRecord :=
  let attribs := vehicle.trip.getD emptyTrip
  let vd := vehicle.vehicle.getD emptyDescriptor
  let rawLabel := truthyStr (jsOrStr vd.label vd.id)
  let rawVehicleType := vd.type
  let rawRouteType :=
    match attribs.routeType with
    | some v => some v
    | none => attribs.route_type
  let label := rawLabel.map jsTrim
  let headsign1 := headsignChain vehicle.headsign attribs label
  let directionIdProvided :=
    attribs.directionId.isSome || attribs.direction_id.isSome
  let directionId :=
    if directionIdProvided then
      match attribs.directionId with
      | some v => some v
      | none =>
        match attribs.direction_id with
        | some v => some v
        | none => none
    else none
  let vehicleType :=
    match rawVehicleType with
    | some v => some v
    | none => rawRouteType
  { id :=
      match truthyStr (jsOrStr vd.id vd.label) with
      | some s => some s
      | none => truthyStr e.id
    label := label
    lat := lat
    lon := lon
    bearing := jsNumOrNull pos.bearing
    speed := jsNumOrNull pos.speed
    routeId := jsOrStr attribs.routeId attribs.route_id
    tripId := jsOrStr attribs.tripId attribs.trip_id
    timestamp :=
      match vehicle.timestamp with
      | some t => if t = 0 then none else some (t * 1000)
      | none => none
    headsign :=
      match truthyStr headsign1 with
      | some s => some (jsTrim s)
      | none => none
    directionId := directionId
    vehicleType := vehicleType }

/-- Decoding of one entity (`lib/server.js` lines 120-166): entities
without a vehicle, without a position, or with a missing latitude or
longitude are skipped. -/
def decodeEntity (e : FeedEntity) : Option VehicleRecord :=
  match e.vehicle with
  | none => none
  | some vehicle =>
    match vehicle.position with
    | none => none
    | some pos =>
      match pos.latitude, pos.longitude with
      | some lat, some lon => some (buildRecord e vehicle pos lat lon)
      | some _, none => none
      | none, _ => none

/-- The whole decoding loop: the records of the entities that pass the
guard, in upstream order. -/
def decodeFeed (entities : List FeedEntity) : List VehicleRecord :=
  entities.filterMap decodeEntity

/-- Events observed by the single-flight slot of `refresh()`
(`lib/server.js` lines 103-105 and 187-191): a caller invokes `refresh()`,
or the in-flight operation settles and the `finally` clause clears the
slot. -/
inductive RefreshEvent where
  | call
  | complete
deriving DecidableEq, Repr

/-- The single-flight coordination state: `inFlight` is the
`inFlightUpdate` slot (holding the identity of the pending operation),
`nextOp` a fresh-identity counter, and `fetchCount` the number of upstream
fetches issued so far. -/
structure FlightState where
  inFlight : Option Nat
  nextOp : Nat
  fetchCount : Nat
deriving DecidableEq, Repr

/-- One step of the single-flight mechanism.  A `call` finding the slot
occupied returns the pending operation without fetching (`lib/server.js`
line 104); a `call` finding it empty starts a fresh operation and issues
one upstream fetch (line 105); `complete` clears the slot (line 190).  The
second component is the operation handle a caller awaits. -/
def flightStep (s : FlightState) : RefreshEvent → FlightState × Option Nat
  | .call =>
    match s.inFlight with
    | some op => (s, some op)
    | none =>
      ({ inFlight := some s.nextOp, nextOp := s.nextOp + 1
         fetchCount := s.fetchCount + 1 }, some s.nextOp)
  | .complete => ({ s with inFlight := none }, none)

/-- Run a sequence of events, collecting the handle returned to each
caller. -/
def runEvents (s : FlightState) : List RefreshEvent →
    FlightState × List (Option Nat)
  | [] => (s, [])
  | e :: es =>
    let p := flightStep s e
    let q := runEvents p.1 es
    (q.1, p.2 :: q.2)

/-- C2: for every number N ≥ 1 of consecutive failures, the delay computed
by `scheduleNextRefresh` equals
`min(refreshIntervalMs * min(2^(N-1), 16), maxBackoffMs)`; the delay is
monotonically non-decreasing in N and never exceeds `maxBackoffMs`; with
N = 0 the delay is `refreshIntervalMs` (given the validated configuration,
where the interval is positive and does not exceed the backoff ceiling). -/
theorem backoff_delay_spec (r m : Int) (hr : 0 < r) (hm : r ≤ m) :
    (∀ N : Nat, 1 ≤ N →
      scheduleDelay r m N = min (r * ((min (2 ^ (N - 1)) 16 : Nat) : Int)) m)
    ∧ (∀ N M : Nat, N ≤ M → scheduleDelay r m N ≤ scheduleDelay r m M)
    ∧ (∀ N : Nat, scheduleDelay r m N ≤ m)
    ∧ scheduleDelay r m 0 = r := by
  refine ⟨fun N _ => rfl, fun N M h => ?_, fun N => min_le_right _ _, ?_⟩
  · unfold scheduleDelay
    refine min_le_min (mul_le_mul_of_nonneg_left ?_ hr.le) le_rfl
    have hmul : backoffMultiplier N ≤ backoffMultiplier M :=
      min_le_min
        (Nat.pow_le_pow_right (by norm_num) (Nat.sub_le_sub_right h 1)) le_rfl
    exact_mod_cast hmul
  · have h1 : backoffMultiplier 0 = 1 := by decide
    simp [scheduleDelay, h1, min_eq_left hm]

/-- Witness for `backoff_delay_spec` at the default configuration
(interval 30000ms, ceiling 5 minutes). -/
theorem backoff_delay_spec_witness :
    scheduleDelay 30000 300000 0 = 30000 :=
  (backoff_delay_spec 30000 300000 (by norm_num) (by norm_num)).2.2.2

/-- C4 counterexample: with a (clamped) refresh interval of 100000ms and a
configured `maxBackoffMs` of 50000 (≤ the interval, hence rejected), the
server substitutes `max(4 * interval, 5 minutes) = 400000`, not the claimed
`max(8 * interval, 5 minutes) = 800000`. -/
theorem maxBackoff_default_counterexample :
    validateMaxBackoffMs
        (validateRefreshIntervalMs (some (JSNum.finite 100000)))
        (some (JSNum.finite 50000)) = 400000
    ∧ (400000 : Int) ≠ max (8 * 100000) 300000 := by
  decide

/-- C4 (amended): a `maxBackoffMs` that is not finite or is ≤ the clamped
refresh interval is replaced by `max(4 * refreshIntervalMs, 5 minutes)`;
an omitted `maxBackoffMs` defaults to 5 minutes and is then subject to the
same rejection rule; a finite value above the interval is kept.  (The
`max(8 * interval, 5 minutes)` expression is only the entry point default
for the `MAX_BACKOFF_MS` environment variable, `mainMaxBackoffDefault`.) -/
theorem maxBackoff_validation (r : Int) :
    (validateMaxBackoffMs r none =
      if 300000 ≤ r then max (4 * r) 300000 else 300000)
    ∧ (∀ n : JSNum, n.isFinite = false →
        validateMaxBackoffMs r (some n) = max (4 * r) 300000)
    ∧ (∀ v : Int, v ≤ r →
        validateMaxBackoffMs r (some (JSNum.finite v)) = max (4 * r) 300000)
    ∧ (∀ v : Int, r < v →
        validateMaxBackoffMs r (some (JSNum.finite v)) = v) := by
  refine ⟨rfl, fun n hn => ?_, fun v hv => ?_, fun v hv => ?_⟩
  · cases n with
    | nan => rfl
    | posInf => rfl
    | negInf => rfl
    | finite v => simp [JSNum.isFinite] at hn
  · simp [validateMaxBackoffMs, hv]
  · simp [validateMaxBackoffMs, not_le.mpr hv]

/-- Witness for `maxBackoff_validation`: a configured 50000ms ceiling under
a 100000ms interval is rejected in favour of
`max(4 * 100000, 300000) = 400000`. -/
theorem maxBackoff_validation_witness :
    validateMaxBackoffMs 100000 (some (JSNum.finite 50000)) =
      max (4 * 100000) 300000 :=
  (maxBackoff_validation 100000).2.2.1 50000 (by norm_num)

/-- C5: a failed refresh attempt goes through `recordFailure`: it
increments `consecutiveFailures` and stores the error, while the vehicle
records, their serialized form, the ETag and `updatedAt` are left
unchanged, so the previously cached snapshot keeps being served. -/
theorem refresh_failure_frame (stringify : List VehicleRecord → String)
    (sha1hex : String → String) (s : ServerState) (err : String) :
    refreshStep stringify sha1hex s (RefreshOutcome.failure err) =
      recordFailure s err
    ∧ (recordFailure s err).consecutiveFailures = s.consecutiveFailures + 1
    ∧ (recordFailure s err).lastUpdateError = some err
    ∧ (recordFailure s err).vehicles = s.vehicles
    ∧ (recordFailure s err).vehiclesJson = s.vehiclesJson
    ∧ (recordFailure s err).vehiclesEtag = s.vehiclesEtag
    ∧ (recordFailure s err).lastUpdatedAtMs = s.lastUpdatedAtMs :=
  ⟨rfl, rfl, rfl, rfl, rfl, rfl, rfl⟩

/-- C6: a successful refresh commits the decoded records wholesale: the
serialized form and the ETag are recomputed from the new records, the
update timestamp is stamped with the current time, the error is cleared
and the failure counter reset. -/
theorem refresh_commit_spec (stringify : List VehicleRecord → String)
    (sha1hex : String → String) (s : ServerState)
    (items : List VehicleRecord) (now : Nat) :
    refreshStep stringify sha1hex s (RefreshOutcome.success items now) =
      commitRefresh stringify sha1hex items now
    ∧ (commitRefresh stringify sha1hex items now).vehicles = items
    ∧ (commitRefresh stringify sha1hex items now).vehiclesJson =
        stringify items
    ∧ (commitRefresh stringify sha1hex items now).vehiclesEtag =
        computeEtag sha1hex now (stringify items)
    ∧ (commitRefresh stringify sha1hex items now).lastUpdatedAtMs = now
    ∧ (commitRefresh stringify sha1hex items now).lastUpdateError = none
    ∧ (commitRefresh stringify sha1hex items now).consecutiveFailures = 0 :=
  ⟨rfl, rfl, rfl, rfl, rfl, rfl, rfl⟩

/-- C1 counterexample: before any successful refresh (`lastUpdatedAtMs` is
0, the initial state), the handler computes a `null` staleness, so
`isStale` is false and `/positions` answers 200 without `X-Feed-Stale`,
not the claimed 503. -/
theorem positions_neverUpdated_counterexample :
    (positionsHandler (fun _ => "") 30000 120000
        (initialState (fun _ => "")) 1000000 none).status = 200
    ∧ (positionsHandler (fun _ => "") 30000 120000
        (initialState (fun _ => "")) 1000000 none).status ≠ 503
    ∧ (positionsHandler (fun _ => "") 30000 120000
        (initialState (fun _ => "")) 1000000 none).xFeedStale = false := by
  refine ⟨rfl, by decide, rfl⟩

/-- C1 (amended): when a successful refresh has happened and
`now - updatedAt` exceeds `staleAfterMs`, `/positions` answers 503 with
`X-Feed-Stale: true` while the body still carries the serialized snapshot;
when `updatedAt` is unset (no success ever) or the data is not stale, the
stale flag is off and — absent a matching `If-None-Match` validator — the
status is 200 with the serialized snapshot (the empty array before the
first success). -/
theorem positions_staleness (sha1hex : String → String)
    (refreshIntervalMs staleAfterMs : Int) (s : ServerState) (now : Nat)
    (ifNoneMatch : Option String) :
    (s.lastUpdatedAtMs ≠ 0 →
      staleAfterMs < (now : Int) - (s.lastUpdatedAtMs : Int) →
      (positionsHandler sha1hex refreshIntervalMs staleAfterMs s now
          ifNoneMatch).status = 503
      ∧ (positionsHandler sha1hex refreshIntervalMs staleAfterMs s now
          ifNoneMatch).xFeedStale = true
      ∧ (positionsHandler sha1hex refreshIntervalMs staleAfterMs s now
          ifNoneMatch).body = s.vehiclesJson)
    ∧ (s.lastUpdatedAtMs = 0 →
      (positionsHandler sha1hex refreshIntervalMs staleAfterMs s now
          ifNoneMatch).xFeedStale = false
      ∧ (ifNoneMatch ≠ some (positionsEtag sha1hex s) →
        (positionsHandler sha1hex refreshIntervalMs staleAfterMs s now
            ifNoneMatch).status = 200
        ∧ (positionsHandler sha1hex refreshIntervalMs staleAfterMs s now
            ifNoneMatch).body = s.vehiclesJson))
    ∧ (s.lastUpdatedAtMs ≠ 0 →
      (now : Int) - (s.lastUpdatedAtMs : Int) ≤ staleAfterMs →
      (positionsHandler sha1hex refreshIntervalMs staleAfterMs s now
          ifNoneMatch).xFeedStale = false
      ∧ (ifNoneMatch ≠ some (positionsEtag sha1hex s) →
        (positionsHandler sha1hex refreshIntervalMs staleAfterMs s now
            ifNoneMatch).status = 200
        ∧ (positionsHandler sha1hex refreshIntervalMs staleAfterMs s now
            ifNoneMatch).body = s.vehiclesJson)) := by
  refine ⟨fun h0 h1 => ?_, fun h0 => ?_, fun h0 h1 => ?_⟩
  · have hstale : isStaleAt staleAfterMs s now = true := by
      simp [isStaleAt, stalenessMsAt, h0, h1]
    refine ⟨?_, ?_, ?_⟩ <;> simp [positionsHandler, hstale]
  · have hstale : isStaleAt staleAfterMs s now = false := by
      simp [isStaleAt, stalenessMsAt, h0]
    refine ⟨by simp [positionsHandler, hstale]; split <;> rfl,
      fun hinm => ?_⟩
    have hbeq : (ifNoneMatch == some (positionsEtag sha1hex s)) = false := by
      simpa using hinm
    constructor <;> simp [positionsHandler, hstale, hbeq]
  · have hstale : isStaleAt staleAfterMs s now = false := by
      simp [isStaleAt, stalenessMsAt, h0, not_lt.mpr h1]
    refine ⟨by simp [positionsHandler, hstale]; split <;> rfl,
      fun hinm => ?_⟩
    have hbeq : (ifNoneMatch == some (positionsEtag sha1hex s)) = false := by
      simpa using hinm
    constructor <;> simp [positionsHandler, hstale, hbeq]

/-- Witness for `positions_staleness`: a snapshot committed at t = 1000
queried at t = 1000000 with a 120000ms threshold is stale, and the 503
response still carries the serialized snapshot body. -/
theorem positions_staleness_witness :
    (positionsHandler (fun _ => "h") 30000 120000
        (commitRefresh (fun _ => "[]") (fun _ => "h") [] 1000)
        1000000 none).status = 503
    ∧ (positionsHandler (fun _ => "h") 30000 120000
        (commitRefresh (fun _ => "[]") (fun _ => "h") [] 1000)
        1000000 none).xFeedStale = true
    ∧ (positionsHandler (fun _ => "h") 30000 120000
        (commitRefresh (fun _ => "[]") (fun _ => "h") [] 1000)
        1000000 none).body =
      (commitRefresh (fun _ => "[]") (fun _ => "h") [] 1000).vehiclesJson :=
  (positions_staleness (fun _ => "h") 30000 120000
      (commitRefresh (fun _ => "[]") (fun _ => "h") [] 1000)
      1000000 none).1 (by decide) (by decide)

/-- C7: a `/positions` request whose `If-None-Match` validator equals the
current ETag is answered 304 with an empty body when the data is not
stale; a request whose validator differs from the current ETag (in
particular any request made after the snapshot advanced to a new
fingerprint) receives the full serialized body. -/
theorem positions_conditional (sha1hex : String → String)
    (refreshIntervalMs staleAfterMs : Int) (s : ServerState) (now : Nat) :
    (isStaleAt staleAfterMs s now = false →
      (positionsHandler sha1hex refreshIntervalMs staleAfterMs s now
          (some (positionsEtag sha1hex s))).status = 304
      ∧ (positionsHandler sha1hex refreshIntervalMs staleAfterMs s now
          (some (positionsEtag sha1hex s))).body = "")
    ∧ (∀ ifNoneMatch : Option String,
        ifNoneMatch ≠ some (positionsEtag sha1hex s) →
        (positionsHandler sha1hex refreshIntervalMs staleAfterMs s now
            ifNoneMatch).body = s.vehiclesJson) := by
  refine ⟨fun hfresh => ?_, fun inm hinm => ?_⟩
  · constructor <;> simp [positionsHandler, hfresh]
  · have hbeq : (inm == some (positionsEtag sha1hex s)) = false := by
      simpa using hinm
    simp [positionsHandler, hbeq]

/-- Witness for `positions_conditional`: replaying the ETag of a snapshot
committed at t = 5000 back at t = 5000 (staleness 0) yields 304 with an
empty body. -/
theorem positions_conditional_witness :
    (positionsHandler (fun _ => "h") 30000 120000
        (commitRefresh (fun _ => "[]") (fun _ => "h") [] 5000) 5000
        (some (positionsEtag (fun _ => "h")
          (commitRefresh (fun _ => "[]") (fun _ => "h") [] 5000)))).status
      = 304 :=
  ((positions_conditional (fun _ => "h") 30000 120000
      (commitRefresh (fun _ => "[]") (fun _ => "h") [] 5000) 5000).1
    (by decide)).1

/-- A nonempty truthy string result: `truthyStr` only yields strings that
are not `""`. -/
theorem truthyStr_some_ne {o : Option String} {s : String}
    (h : truthyStr o = some s) : s ≠ "" := by
  cases o with
  | none => simp [truthyStr] at h
  | some t =>
    by_cases ht : t = ""
    · simp [truthyStr, ht] at h
    · simp [truthyStr, ht] at h
      subst h
      exact ht

/-- C8: an entity lacking a vehicle, lacking a position, or whose position
is missing latitude or longitude is absent from the decoded record
sequence; the output record count is ≤ the input entity count; and every
record of a decoded feed carries the (present) coordinates of its source
entity — no record ever has missing coordinates. -/
theorem decode_filtering :
    (∀ e : FeedEntity, e.vehicle = none → decodeEntity e = none)
    ∧ (∀ (e : FeedEntity) (v : GtfsVehicle),
        e.vehicle = some v → v.position = none → decodeEntity e = none)
    ∧ (∀ (e : FeedEntity) (v : GtfsVehicle) (p : GtfsPosition),
        e.vehicle = some v → v.position = some p →
        p.latitude = none ∨ p.longitude = none → decodeEntity e = none)
    ∧ (∀ es : List FeedEntity, (decodeFeed es).length ≤ es.length)
    ∧ (∀ (es : List FeedEntity) (r : VehicleRecord), r ∈ decodeFeed es →
        ∃ e, e ∈ es ∧ ∃ (v : GtfsVehicle) (p : GtfsPosition),
          e.vehicle = some v ∧ v.position = some p ∧
          p.latitude = some r.lat ∧ p.longitude = some r.lon) := by
  refine ⟨?_, ?_, ?_, ?_, ?_⟩
  · intro e he
    simp [decodeEntity, he]
  · intro e v he hp
    simp [decodeEntity, he, hp]
  · intro e v p he hp hlat
    rcases hlat with h | h
    · simp [decodeEntity, he, hp, h]
    · cases hl : p.latitude <;> simp [decodeEntity, he, hp, h, hl]
  · intro es
    exact List.length_filterMap_le _ _
  · intro es r hr
    rw [decodeFeed, List.mem_filterMap] at hr
    obtain ⟨e, he, hdec⟩ := hr
    refine ⟨e, he, ?_⟩
    cases hv : e.vehicle with
    | none => simp [decodeEntity, hv] at hdec
    | some v =>
      cases hp : v.position with
      | none => simp [decodeEntity, hv, hp] at hdec
      | some p =>
        cases hlat : p.latitude with
        | none => simp [decodeEntity, hv, hp, hlat] at hdec
        | some lat =>
          cases hlon : p.longitude with
          | none => simp [decodeEntity, hv, hp, hlat, hlon] at hdec
          | some lon =>
            simp only [decodeEntity, hv, hp, hlat, hlon,
              Option.some.injEq] at hdec
            refine ⟨v, p, rfl, hp, ?_, ?_⟩
            · rw [← hdec]
              simpa [buildRecord] using hlat
            · rw [← hdec]
              simpa [buildRecord] using hlon

/-- Witness for `decode_filtering`: an entity with no vehicle payload is
skipped. -/
theorem decode_filtering_witness :
    decodeEntity { id := none, vehicle := none } = none :=
  decode_filtering.1 { id := none, vehicle := none } rfl

/-- C9: with no explicit headsign field and label `"12-Lagiewnicka"`, the
derived headsign is `"Lagiewnicka"` (shown on `deriveHeadsignFromLabel`
and end-to-end through `decodeEntity`); a truthy explicit headsign wins
over the fallback; and when every explicit headsign field is falsy the
chain reduces to the label-derived fallback. -/
theorem headsign_fallback :
    deriveHeadsignFromLabel (some "12-Lagiewnicka") = some "Lagiewnicka"
    ∧ Option.map VehicleRecord.headsign (decodeEntity
        { id := none
          vehicle := some
            { position := some
                { latitude := some 51, longitude := some 19
                  bearing := none, speed := none }
              trip := none
              vehicle := some
                { id := none, label := some "12-Lagiewnicka", type := none }
              headsign := none
              timestamp := none } }) = some (some "Lagiewnicka")
    ∧ (∀ (vh : Option String) (attribs : GtfsTrip) (label : Option String)
        (s : String), truthyStr vh = some s →
        headsignChain vh attribs label = some s)
    ∧ (∀ (vh : Option String) (attribs : GtfsTrip) (label : Option String),
        truthyStr vh = none →
        truthyStr attribs.tripHeadsign = none →
        truthyStr attribs.trip_headsign = none →
        truthyStr attribs.headsign = none →
        truthyStr attribs.tripDestination = none →
        truthyStr attribs.destination = none →
        headsignChain vh attribs label = deriveHeadsignFromLabel label) := by
  refine ⟨by decide, by decide, ?_, ?_⟩
  · intro vh attribs label s hs
    have hne : s ≠ "" := truthyStr_some_ne hs
    unfold headsignChain jsOrStr
    rw [hs]
    simp [truthyStr, hne]
  · intro vh attribs label h1 h2 h3 h4 h5 h6
    unfold headsignChain jsOrStr
    rw [h1, h2, h3, h4, h5, h6]
    rfl

/-- Witness for `headsign_fallback`: a truthy explicit headsign
`"Centrum"` suppresses the label fallback. -/
theorem headsign_fallback_witness :
    headsignChain (some "Centrum") emptyTrip (some "12-Lagiewnicka") =
      some "Centrum" :=
  headsign_fallback.2.2.1 (some "Centrum") emptyTrip
    (some "12-Lagiewnicka") "Centrum" (by decide)

/-- C10: upstream `bearing`, `speed` or `timestamp` equal to 0 is coerced
to `null` in the emitted record by the falsy checks, whereas a
`directionId` of 0 (in either spelling) is preserved as 0 when the field
is present. -/
theorem zero_falsy_coercion :
    ∀ (e : FeedEntity) (v : GtfsVehicle) (p : GtfsPosition) (lat lon : Int),
      e.vehicle = some v → v.position = some p →
      p.latitude = some lat → p.longitude = some lon →
      ∃ r, decodeEntity e = some r
        ∧ (p.bearing = some 0 → r.bearing = none)
        ∧ (p.speed = some 0 → r.speed = none)
        ∧ (v.timestamp = some 0 → r.timestamp = none)
        ∧ (∀ t : GtfsTrip, v.trip = some t → t.directionId = some 0 →
            r.directionId = some 0)
        ∧ (∀ t : GtfsTrip, v.trip = some t → t.directionId = none →
            t.direction_id = some 0 → r.directionId = some 0) := by
  intro e v p lat lon hv hp hlat hlon
  refine ⟨buildRecord e v p lat lon,
    by simp [decodeEntity, hv, hp, hlat, hlon], ?_, ?_, ?_, ?_, ?_⟩
  · intro hb
    simp [buildRecord, hb, jsNumOrNull]
  · intro hsp
    simp [buildRecord, hsp, jsNumOrNull]
  · intro ht
    simp [buildRecord, ht]
  · intro t htr hd
    simp [buildRecord, htr, hd]
  · intro t htr hd hd2
    simp [buildRecord, htr, hd, hd2]

/-- Witness for `zero_falsy_coercion`: a vehicle reporting bearing 0 is
emitted with a `null` bearing. -/
theorem zero_falsy_coercion_witness :
    Option.map VehicleRecord.bearing (decodeEntity
      { id := none
        vehicle := some
          { position := some
              { latitude := some 51, longitude := some 19
                bearing := some 0, speed := some 0 }
            trip := none
            vehicle := none
            headsign := none
            timestamp := some 0 } }) = some none := by
  obtain ⟨r, hr, hb, -, -, -, -⟩ :=
    zero_falsy_coercion
      { id := none
        vehicle := some
          { position := some
              { latitude := some 51, longitude := some 19
                bearing := some 0, speed := some 0 }
            trip := none
            vehicle := none
            headsign := none
            timestamp := some 0 } }
      { position := some
          { latitude := some 51, longitude := some 19
            bearing := some 0, speed := some 0 }
        trip := none
        vehicle := none
        headsign := none
        timestamp := some 0 }
      { latitude := some 51, longitude := some 19
        bearing := some 0, speed := some 0 }
      51 19 rfl rfl rfl rfl
  rw [hr]
  simp [hb rfl]

/-- Calls arriving while an operation is in flight leave the single-flight
state untouched and all receive the pending operation. -/
theorem runEvents_calls_inFlight (s : FlightState) (op : Nat)
    (hs : s.inFlight = some op) :
    ∀ n : Nat, runEvents s (List.replicate n RefreshEvent.call) =
      (s, List.replicate n (some op)) := by
  intro n
  induction n with
  | zero => rfl
  | succ k ih =>
    simp only [List.replicate_succ, runEvents, flightStep, hs, ih]

/-- C3: from an idle single-flight state, a burst of 1 + n calls to
`refresh()` issues exactly one upstream fetch, and every caller is
attached to the same in-flight operation (hence observes the same
resulting snapshot or error when it settles). -/
theorem refresh_single_flight (s : FlightState) (h : s.inFlight = none)
    (n : Nat) :
    (runEvents s (List.replicate (n + 1) RefreshEvent.call)).1.fetchCount
        = s.fetchCount + 1
    ∧ (runEvents s (List.replicate (n + 1) RefreshEvent.call)).2
        = List.replicate (n + 1) (some s.nextOp) := by
  have hstep : flightStep s RefreshEvent.call =
      ({ inFlight := some s.nextOp, nextOp := s.nextOp + 1
         fetchCount := s.fetchCount + 1 }, some s.nextOp) := by
    simp [flightStep, h]
  have hrest := runEvents_calls_inFlight
      { inFlight := some s.nextOp, nextOp := s.nextOp + 1
        fetchCount := s.fetchCount + 1 } s.nextOp rfl n
  constructor
  · simp only [List.replicate_succ, runEvents, hstep, hrest]
  · simp only [List.replicate_succ, runEvents, hstep, hrest]

/-- Witness for `refresh_single_flight`: three simultaneous callers on a
fresh server cause a single upstream fetch and all await operation 0. -/
theorem refresh_single_flight_witness :
    (runEvents { inFlight := none, nextOp := 0, fetchCount := 0 }
        (List.replicate 3 RefreshEvent.call)).1.fetchCount = 0 + 1
    ∧ (runEvents { inFlight := none, nextOp := 0, fetchCount := 0 }
        (List.replicate 3 RefreshEvent.call)).2 =
      List.replicate 3 (some 0) :=
  refresh_single_flight
    { inFlight := none, nextOp := 0, fetchCount := 0 } rfl 2
